import Mathlib

/-!
Verification of the inbound-packet scripted-dispatch module of the canary
server (`src/lua/modules/modules.cpp`): the opcode-keyed registry
(`Modules`), the per-opcode handler record (`Module`), and the
scripted-call bridge (`Module::executeOnRecvbyte`).

The embedding mirrors the C++ source: `std::map<uint8_t, Module_ptr>
recvbyteList` becomes an association list whose in-place mutations
(`it->second = module`, `oldModule->copyEvent(...)`, `clearEvent`) become
functional updates of the slot at the given key; machine integers become
`Nat`/`Int` with explicit reductions where the source casts
(`static_cast<uint8_t>`, `static_cast<int16_t>`).  Collaborators that live
outside this translation unit (the `Event` base class, `Player`,
`LuaScriptInterface`) are modelled from the spec where noted.
-/

namespace Canary

/-- The C++ `ModuleType_t` enum: `MODULE_TYPE_NONE` (unconfigured
placeholder) and `MODULE_TYPE_RECVBYTE`. -/
inductive ModuleType where
  | MODULE_TYPE_NONE
  | MODULE_TYPE_RECVBYTE
deriving DecidableEq, Repr

open ModuleType

/-- `static_cast<uint8_t>` applied to a C++ `int`: reduction modulo 256
(two's-complement wraparound, then reinterpretation as unsigned). -/
def toUInt8cast (i : Int) : Nat := (i % 256).toNat

/-- `static_cast<int16_t>` applied to a C++ `unsigned int`: reduce modulo
2^16 and reinterpret the 16 low bits as a two's-complement signed value. -/
def toInt16cast (n : Nat) : Int :=
  let m := n % 65536
  if m < 32768 then (m : Int) else (m : Int) - 65536

/-- `asLowerCaseString` from the repository's string utilities: lower-case
every character (used for the case-insensitive `type` match).  Written on
the character list so it evaluates by kernel reduction. -/
def asLowerCaseString (s : String) : String := String.mk (s.data.map Char.toLower)

/-- The handler record `Module`.  Fields `type` (`ModuleType_t`),
`recvbyte` (`uint8_t`), `delay` (`int16_t`) are declared by `Module`;
`scriptId`, `scripted` and the `scriptInterface` pointer live in the
`Event` base class (not under src) and are modelled from the spec:
`script_id` is an opaque identifier with 0 meaning unbound, `scripted`
is true once a script body has been associated, `script_runtime` is a
non-owning reference to the registry's runtime (here: an optional
interface id, `none` standing for a null pointer). -/
structure Module where
  type : ModuleType
  recvbyte : Nat
  delay : Int
  scriptId : Nat
  scriptInterface : Option Nat
  scripted : Bool
  loaded : Bool
deriving DecidableEq, Repr

/-- `Module::Module(LuaScriptInterface*)`: sets `type = MODULE_TYPE_NONE`
and `loaded = false`; the `Event(interface)` base constructor stores the
interface pointer.  The `Event` base-class member initializers
(`scriptId = 0`, `scripted = false`) and the zero-initialized `recvbyte`
and `delay` members are modelled from the spec (0 means unbound; default
delay 0). -/
def Module.fresh (iface : Nat) : Module :=
  { type := MODULE_TYPE_NONE
    recvbyte := 0
    delay := 0
    scriptId := 0
    scriptInterface := some iface
    scripted := false
    loaded := false }

/-- The slice of a pugixml `xml_node` that `Module::configureEvent` reads:
the `type`, `byte` and `delay` attributes, already decoded per the tree
walker's conventions (`as_string` for `type`, `as_int` for `byte`,
`as_uint` for `delay`).  A missing attribute is `none`. -/
structure XmlNode where
  type : Option String
  byte : Option Int
  delay : Option Nat
deriving DecidableEq, Repr

/-- `Module::configureEvent(node)`: reset `delay` to 0; require a `type`
attribute; lower-case it and require it to be `recvbyte`; require a
`byte` attribute, truncated to `uint8_t`; set `type = MODULE_TYPE_RECVBYTE`;
decode the optional `delay` attribute as unsigned and truncate it to
`int16_t`; finally set `loaded = true` and succeed.  Returns the mutated
record together with the boolean result. -/
def Module.configureEvent (m : Module) (node : XmlNode) : Module × Bool :=
  let m0 := { m with delay := 0 }
  match node.type with
  | none => (m0, false)
  | some typeStr =>
    let tmpStr := asLowerCaseString typeStr
    if tmpStr = "recvbyte" then
      match node.byte with
      | none => (m0, false)
      | some b =>
        let m1 := { m0 with recvbyte := toUInt8cast b, type := MODULE_TYPE_RECVBYTE }
        let m2 :=
          match node.delay with
          | some d => { m1 with delay := toInt16cast d }
          | none => m1
        ({ m2 with loaded := true }, true)
    else
      (m0, false)

/-- `Module::copyEvent(module)`: copies `scriptId`, `scriptInterface`,
`scripted`, `loaded` from the other record; leaves `type`, `recvbyte` and
`delay` untouched. -/
def Module.copyEvent (m other : Module) : Module :=
  { m with
    scriptId := other.scriptId
    scriptInterface := other.scriptInterface
    scripted := other.scripted
    loaded := other.loaded }

/-- `Module::clearEvent()`: `scriptId = 0`, `scriptInterface = nullptr`,
`scripted = false`, `loaded = false`. -/
def Module.clearEvent (m : Module) : Module :=
  { m with scriptId := 0, scriptInterface := none, scripted := false, loaded := false }

/-- Modelled from the spec: the external script-body loader
(`Event::loadScript`, not under src) associates a nonzero script id with a
configured record — "external script-loader associates a script id; sets
`scripted = true`, `loaded = true`". -/
def Module.bindScript (m : Module) (id : Nat) : Module :=
  { m with scriptId := id, scripted := true, loaded := true }

/-- The registry `Modules`: `recvbyteList` is the `std::map<uint8_t,
Module_ptr>`, embedded as an association list from opcode to record;
`runtimeGen` abstracts the owned `LuaScriptInterface` instance as a
generation counter, bumped by `reInitState()` (the Lua VM itself is
outside the embedding). -/
structure Modules where
  recvbyteList : List (Nat × Module)
  runtimeGen : Nat
deriving DecidableEq, Repr

/-- `Modules::Modules()`: empty map, freshly initialized script
interface. -/
def Modules.init : Modules :=
  { recvbyteList := [], runtimeGen := 0 }

/-- `recvbyteList.find(k)`: the record stored at key `k`, if any (first
matching key of the association list). -/
def findRecvbyte : List (Nat × Module) → Nat → Option Module
  | [], _ => none
  | p :: rest, k => if p.1 = k then some p.2 else findRecvbyte rest k

/-- Writing the map slot at key `k` (the image of `it->second = v` and of
the in-place mutations of the shared record stored at `k`): replaces the
first entry whose key is `k`. -/
def updateRecvbyte : List (Nat × Module) → Nat → Module → List (Nat × Module)
  | [], _, _ => []
  | p :: rest, k, v => if p.1 = k then (p.1, v) :: rest else p :: updateRecvbyte rest k v

/-- `Modules::clear()`: calls `clearEvent()` on every stored record
(keys and records stay in place), then reinitializes the Lua state
(`scriptInterface.reInitState()`).  Total: no failure modes. -/
def Modules.clear (ms : Modules) : Modules :=
  { recvbyteList := ms.recvbyteList.map (fun p => (p.1, p.2.clearEvent))
    runtimeGen := ms.runtimeGen + 1 }

/-- `Modules::getEventByRecvbyte(recvbyte, force)`: return the stored
record, except that with `force = true` an unloaded record is treated as
absent. -/
def Modules.getEventByRecvbyte (ms : Modules) (recvbyte : Nat) (force : Bool) : Option Module :=
  match findRecvbyte ms.recvbyteList recvbyte with
  | some m => if !force || m.loaded then some m else none
  | none => none

/-- `Modules::registerEvent(event, node)`: reject records with
`type = MODULE_TYPE_NONE` (logging the missing-type error); if a record is
already stored at the opcode, copy-bind onto it when it is unloaded and of
the same type, otherwise fail without modification; if nothing is stored,
insert (the source re-runs `recvbyteList.find` and overwrites the slot if
it finds one, else `emplace`s).  Returns (success, updated registry,
error log). -/
def Modules.registerEvent (ms : Modules) (module : Module) :
    Bool × Modules × Option String :=
  if module.type = MODULE_TYPE_NONE then
    (false, ms, some ("Trying to register event without type!"))
  else
    match ms.getEventByRecvbyte module.recvbyte false with
    | some oldModule =>
      if oldModule.loaded = false ∧ oldModule.type = module.type then
        (true,
         { ms with recvbyteList :=
            updateRecvbyte ms.recvbyteList module.recvbyte (oldModule.copyEvent module) },
         none)
      else
        (false, ms, none)
    | none =>
      match findRecvbyte ms.recvbyteList module.recvbyte with
      | some _ =>
        (true,
         { ms with recvbyteList :=
            updateRecvbyte ms.recvbyteList module.recvbyte module },
         none)
      | none =>
        (true,
         { ms with recvbyteList := ms.recvbyteList ++ [(module.recvbyte, module)] },
         none)

/-- Modelled from the spec: the external player collaborator
(`creatures/players/player.hpp`, not under src).  `canRun` is the
per-opcode throttle predicate `player->canRunModule(opcode)` at the
instant of dispatch; `armedDelays` records the
`player->setModuleDelay(opcode, delay)` calls (most recent first); `name`
is `getName()`; `objId` identifies the player object for the
userdata-ownership model. -/
structure Player where
  objId : Nat
  name : String
  canRun : Nat → Bool
  armedDelays : List (Nat × Int)

/-- `player->canRunModule(byte)`. -/
def Player.canRunModule (p : Player) (byte : Nat) : Bool := p.canRun byte

/-- `player->setModuleDelay(byte, delay)`: arm the per-opcode throttle. -/
def Player.setModuleDelay (p : Player) (byte : Nat) (delay : Int) : Player :=
  { p with armedDelays := (byte, delay) :: p.armedDelays }

/-- The inbound `NetworkMessage` buffer, identified by the address of the
caller-owned object. -/
structure NetworkMessage where
  objId : Nat
deriving DecidableEq, Repr

/-- Modelled from the spec: the two userdata flavors of the script
runtime — strong userdata participates in shared ownership of its
referent; weak userdata does not extend the referent's lifetime. -/
inductive Strength where
  | strong
  | weak
deriving DecidableEq, Repr

/-- Modelled from the spec: a value pushed onto the Lua stack for the
scripted call.  `pushUserdata` + `setMetatable` produce a strong userdata
tagged with a type name; `pushUserdata` + `setWeakMetatable` produce a
weak one; `lua_pushnumber` pushes a number.  (These live in
`LuaScriptInterface`, not under src.) -/
inductive LuaValue where
  | userdata (typeName : String) (strength : Strength) (objId : Nat)
  | number (n : Nat)
deriving DecidableEq, Repr

/-- The scripted call as handed to the runtime: the function id tagged on
the environment (`env->setScriptId(scriptId, scriptInterface)`) and the
pushed arguments, in push order. -/
structure ScriptCall where
  scriptId : Nat
  iface : Option Nat
  args : List LuaValue
deriving DecidableEq, Repr

/-- Modelled from the spec: the bounded pool of per-call script
environments (`LuaScriptInterface::reserveScriptEnv`, not under src);
acquisition succeeds iff a free environment remains. -/
structure LuaRuntime where
  envFree : Nat
deriving DecidableEq, Repr

/-- Result of the bridge: the script call made (if any) and the error
log emitted (if any). -/
structure BridgeResult where
  call : Option ScriptCall
  log : Option String
deriving DecidableEq, Repr

/-- `Module::executeOnRecvbyte(player, msg)` — the scripted-call bridge:
if no script environment can be reserved, log the call-stack-overflow
error with the player's name and return; otherwise tag the environment
with `scriptId`/`scriptInterface` and call the loaded function with three
arguments: a strong `"Player"` userdata, a weak `"NetworkMessage"`
userdata, and the recvbyte as a number. -/
def Module.executeOnRecvbyte (m : Module) (rt : LuaRuntime) (player : Player)
    (msg : NetworkMessage) : BridgeResult :=
  if rt.envFree = 0 then
    { call := none
      log := some ("Call stack overflow. Too many lua script calls being nested " ++ player.name) }
  else
    { call := some
        { scriptId := m.scriptId
          iface := m.scriptInterface
          args := [LuaValue.userdata ("Player") Strength.strong player.objId,
                   LuaValue.userdata ("NetworkMessage") Strength.weak msg.objId,
                   LuaValue.number m.recvbyte] }
      log := none }

/-- Result of one dispatch call: the handler whose bridge was invoked (if
any), the resolved player after dispatch (throttle possibly armed), and
the bridge's outputs. -/
structure DispatchResult where
  invoked : Option Module
  player : Option Player
  call : Option ScriptCall
  log : Option String

/-- The range-for of `Modules::executeOnRecvbyte`: scan the stored
records for the first one with `type == MODULE_TYPE_RECVBYTE`, matching
`recvbyte`, and a permitting throttle; on a match, arm the throttle
(`setModuleDelay`) and invoke the bridge, then return. -/
def dispatchScan (rt : LuaRuntime) (player : Player) (msg : NetworkMessage)
    (byte : Nat) : List (Nat × Module) → DispatchResult
  | [] => { invoked := none, player := some player, call := none, log := none }
  | p :: rest =>
    let module := p.2
    if module.type = MODULE_TYPE_RECVBYTE ∧ module.recvbyte = byte
        ∧ player.canRunModule module.recvbyte = true then
      let player1 := player.setModuleDelay module.recvbyte module.delay
      let br := module.executeOnRecvbyte rt player1 msg
      { invoked := some module, player := some player1, call := br.call, log := br.log }
    else
      dispatchScan rt player msg byte rest

/-- `Modules::executeOnRecvbyte(playerId, msg, byte)` — the dispatch
entry point: resolve the player id (`g_game().getPlayerByID`), returning
silently if absent, then scan the registry. -/
def Modules.executeOnRecvbyte (ms : Modules) (rt : LuaRuntime)
    (players : Nat → Option Player) (playerId : Nat) (msg : NetworkMessage)
    (byte : Nat) : DispatchResult :=
  match players playerId with
  | none => { invoked := none, player := none, call := none, log := none }
  | some player => dispatchScan rt player msg byte ms.recvbyteList

/-- Modelled from the spec: an object is kept alive by the script during
the call iff some strong userdata on the stack references it; weak
userdata does not extend its referent's lifetime. -/
def scriptKeepsAlive (args : List LuaValue) (objId : Nat) : Bool :=
  args.any (fun v =>
    match v with
    | LuaValue.userdata _ s o => decide (s = Strength.strong ∧ o = objId)
    | LuaValue.number _ => false)

/-- Well-formedness of a registry state: every stored record's `recvbyte`
equals its map key (the source always inserts at `module->getRecvbyte()`),
and keys are unique (`std::map`). -/
def Modules.WF (ms : Modules) : Prop :=
  (∀ p ∈ ms.recvbyteList, p.2.recvbyte = p.1) ∧ (ms.recvbyteList.map Prod.fst).Nodup

/-- Registry states reachable from a fresh registry by any sequence of
`registerEvent` and `clear` operations. -/
inductive ReachableModules : Modules → Prop where
  | init : ReachableModules Modules.init
  | register (ms : Modules) (m : Module) :
      ReachableModules ms → ReachableModules (ms.registerEvent m).2.1
  | clear (ms : Modules) :
      ReachableModules ms → ReachableModules ms.clear

/-! ### Concrete fixtures used by counterexamples and witnesses -/

/-- The configuration node `<module type="recvbyte" byte="10" delay="500"/>`. -/
def cNode : XmlNode := { type := some ("recvbyte"), byte := some 10, delay := some 500 }

/-- A fresh record configured from `cNode`: `MODULE_TYPE_RECVBYTE`, opcode
10, delay 500, `loaded = true`, not yet scripted. -/
def cModule : Module := ((Module.fresh 0).configureEvent cNode).1

/-- `cModule` after the external loader binds script id 7. -/
def cBound : Module := cModule.bindScript 7

/-- A connected player whose throttle always permits execution. -/
def cPlayer : Player := { objId := 1, name := "alice", canRun := fun _ => true, armedDelays := [] }

/-- The player registry: id 42 resolves to `cPlayer`, every other id to
nobody. -/
def cPlayers : Nat → Option Player := fun pid => if pid = 42 then some cPlayer else none

/-- A caller-owned inbound message buffer. -/
def cMsg : NetworkMessage := { objId := 2 }

/-- A runtime with one free script environment. -/
def cRt1 : LuaRuntime := { envFree := 1 }

/-- An exhausted runtime: no free script environment. -/
def cRt0 : LuaRuntime := { envFree := 0 }

/-- The registry after registering `cBound`: one loaded entry at opcode 10. -/
def cMs1 : Modules := (Modules.init.registerEvent cBound).2.1

/-- `cMs1` after `clear()`: the entry at opcode 10 keeps
`MODULE_TYPE_RECVBYTE` but is unbound (`loaded = false`, `scriptId = 0`). -/
def cMs2 : Modules := cMs1.clear

/-! ### Map lemmas: `findRecvbyte` / `updateRecvbyte` -/

theorem findRecvbyte_mem {l : List (Nat × Module)} {k : Nat} {m : Module}
    (h : findRecvbyte l k = some m) : (k, m) ∈ l := by
  induction l with
  | nil => simp [findRecvbyte] at h
  | cons p rest ih =>
    obtain ⟨a, b⟩ := p
    by_cases ha : a = k
    · subst ha
      simp [findRecvbyte] at h
      subst h
      exact List.mem_cons_self _ _
    · simp [findRecvbyte, ha] at h
      exact List.mem_cons_of_mem _ (ih h)

theorem findRecvbyte_eq_none {l : List (Nat × Module)} {k : Nat}
    (h : ∀ p ∈ l, p.1 ≠ k) : findRecvbyte l k = none := by
  induction l with
  | nil => rfl
  | cons p rest ih =>
    have hp := h p (List.mem_cons_self _ _)
    simp only [findRecvbyte, if_neg hp]
    exact ih (fun q hq => h q (List.mem_cons_of_mem _ hq))

theorem findRecvbyte_updateRecvbyte_self (l : List (Nat × Module)) (k : Nat) (v : Module) :
    findRecvbyte (updateRecvbyte l k v) k = (findRecvbyte l k).map (fun _ => v) := by
  induction l with
  | nil => rfl
  | cons p rest ih =>
    by_cases hp : p.1 = k
    · simp [findRecvbyte, updateRecvbyte, hp]
    · simp [findRecvbyte, updateRecvbyte, hp, ih]

theorem findRecvbyte_updateRecvbyte_other (l : List (Nat × Module)) (k : Nat) (v : Module)
    {j : Nat} (hj : j ≠ k) :
    findRecvbyte (updateRecvbyte l k v) j = findRecvbyte l j := by
  have hkj : k ≠ j := fun h => hj h.symm
  induction l with
  | nil => rfl
  | cons p rest ih =>
    by_cases hp : p.1 = k
    · simp [findRecvbyte, updateRecvbyte, hp, hkj]
    · simp only [updateRecvbyte, if_neg hp]
      by_cases hq : p.1 = j
      · simp [findRecvbyte, hq]
      · simp [findRecvbyte, hq, ih]

theorem updateRecvbyte_keys (l : List (Nat × Module)) (k : Nat) (v : Module) :
    (updateRecvbyte l k v).map Prod.fst = l.map Prod.fst := by
  induction l with
  | nil => rfl
  | cons p rest ih =>
    by_cases hp : p.1 = k
    · simp [updateRecvbyte, hp]
    · simp [updateRecvbyte, hp, ih]

theorem mem_updateRecvbyte {l : List (Nat × Module)} {k : Nat} {v : Module} {p : Nat × Module}
    (h : p ∈ updateRecvbyte l k v) : p ∈ l ∨ p.2 = v := by
  induction l with
  | nil => simp [updateRecvbyte] at h
  | cons q rest ih =>
    by_cases hq : q.1 = k
    · simp only [updateRecvbyte, if_pos hq] at h
      rcases List.mem_cons.mp h with h1 | h2
      · right; rw [h1]
      · left; exact List.mem_cons_of_mem _ h2
    · simp only [updateRecvbyte, if_neg hq] at h
      rcases List.mem_cons.mp h with h1 | h2
      · left; rw [h1]; exact List.mem_cons_self _ _
      · rcases ih h2 with h3 | h3
        · left; exact List.mem_cons_of_mem _ h3
        · right; exact h3

theorem findRecvbyte_append (l l' : List (Nat × Module)) (k : Nat) :
    findRecvbyte (l ++ l') k =
      match findRecvbyte l k with
      | some m => some m
      | none => findRecvbyte l' k := by
  induction l with
  | nil => rfl
  | cons p rest ih =>
    by_cases hp : p.1 = k
    · simp [findRecvbyte, hp]
    · simp [findRecvbyte, hp, ih]

theorem findRecvbyte_map (f : Module → Module) (l : List (Nat × Module)) (k : Nat) :
    findRecvbyte (l.map (fun p => (p.1, f p.2))) k = (findRecvbyte l k).map f := by
  induction l with
  | nil => rfl
  | cons p rest ih =>
    by_cases hp : p.1 = k
    · simp [findRecvbyte, hp]
    · simp [findRecvbyte, hp, ih]

/-! ### Dispatch lemmas -/

theorem dispatchScan_of_no_match (rt : LuaRuntime) (pl : Player) (msg : NetworkMessage)
    (byte : Nat) (l : List (Nat × Module))
    (h : ∀ p ∈ l, ¬(p.2.type = MODULE_TYPE_RECVBYTE ∧ p.2.recvbyte = byte
          ∧ pl.canRunModule p.2.recvbyte = true)) :
    dispatchScan rt pl msg byte l =
      { invoked := none, player := some pl, call := none, log := none } := by
  induction l with
  | nil => rfl
  | cons p rest ih =>
    have hp := h p (List.mem_cons_self _ _)
    simp only [dispatchScan]
    rw [if_neg hp]
    exact ih (fun q hq => h q (List.mem_cons_of_mem _ hq))

/-- Characterization of the dispatch scan over a well-formed registry
list: it is the direct lookup at `byte`, guarded by the kind check and the
throttle, with the throttle armed before the bridge runs. -/
theorem dispatchScan_eq (rt : LuaRuntime) (pl : Player) (msg : NetworkMessage) (byte : Nat)
    (l : List (Nat × Module)) (hk : ∀ p ∈ l, p.2.recvbyte = p.1)
    (hnd : (l.map Prod.fst).Nodup) :
    dispatchScan rt pl msg byte l =
      match findRecvbyte l byte with
      | some m =>
        if m.type = MODULE_TYPE_RECVBYTE ∧ pl.canRunModule byte = true then
          { invoked := some m
            player := some (pl.setModuleDelay byte m.delay)
            call := (m.executeOnRecvbyte rt (pl.setModuleDelay byte m.delay) msg).call
            log := (m.executeOnRecvbyte rt (pl.setModuleDelay byte m.delay) msg).log }
        else
          { invoked := none, player := some pl, call := none, log := none }
      | none => { invoked := none, player := some pl, call := none, log := none } := by
  induction l with
  | nil => rfl
  | cons p rest ih =>
    obtain ⟨a, m0⟩ := p
    have hm0 : m0.recvbyte = a := hk (a, m0) (List.mem_cons_self _ _)
    have hkrest : ∀ q ∈ rest, q.2.recvbyte = q.1 := fun q hq => hk q (List.mem_cons_of_mem _ hq)
    have hndrest : (rest.map Prod.fst).Nodup := by
      simp only [List.map_cons, List.nodup_cons] at hnd
      exact hnd.2
    have hanotin : a ∉ rest.map Prod.fst := by
      simp only [List.map_cons, List.nodup_cons] at hnd
      exact hnd.1
    by_cases ha : a = byte
    · subst ha
      have hfind : findRecvbyte ((a, m0) :: rest) a = some m0 := by
        simp [findRecvbyte]
      rw [hfind]
      by_cases hc : m0.type = MODULE_TYPE_RECVBYTE ∧ pl.canRunModule a = true
      · have hcond : m0.type = MODULE_TYPE_RECVBYTE ∧ m0.recvbyte = a
            ∧ pl.canRunModule m0.recvbyte = true := ⟨hc.1, hm0, by rw [hm0]; exact hc.2⟩
        simp only [dispatchScan]
        rw [if_pos hcond, if_pos hc, hm0]
      · have hcond : ¬(m0.type = MODULE_TYPE_RECVBYTE ∧ m0.recvbyte = a
            ∧ pl.canRunModule m0.recvbyte = true) := by
          intro hcontra
          exact hc ⟨hcontra.1, by rw [← hm0]; exact hcontra.2.2⟩
        simp only [dispatchScan]
        rw [if_neg hcond, if_neg hc]
        apply dispatchScan_of_no_match
        intro q hq hcontra
        have hq2 : q.2.recvbyte = q.1 := hkrest q hq
        have hq1 : q.1 = a := by rw [← hq2]; exact hcontra.2.1
        refine hanotin ?_
        rw [← hq1]
        exact List.mem_map_of_mem Prod.fst hq
    · have hcond : ¬(m0.type = MODULE_TYPE_RECVBYTE ∧ m0.recvbyte = byte
          ∧ pl.canRunModule m0.recvbyte = true) := by
        intro hcontra
        exact ha (by rw [← hm0]; exact hcontra.2.1)
      have hfind : findRecvbyte ((a, m0) :: rest) byte = findRecvbyte rest byte := by
        simp [findRecvbyte, ha]
      simp only [dispatchScan]
      rw [if_neg hcond, hfind]
      exact ih hkrest hndrest

/-! ### Registration and configuration lemmas -/

theorem getEventByRecvbyte_false (ms : Modules) (k : Nat) :
    ms.getEventByRecvbyte k false = findRecvbyte ms.recvbyteList k := by
  unfold Modules.getEventByRecvbyte
  cases findRecvbyte ms.recvbyteList k <;> rfl

theorem moduleType_ne_none {t : ModuleType} (h : t ≠ MODULE_TYPE_NONE) :
    t = MODULE_TYPE_RECVBYTE := by
  cases t with
  | MODULE_TYPE_NONE => exact absurd rfl h
  | MODULE_TYPE_RECVBYTE => rfl

/-- On success, `configureEvent` saw a `recvbyte` type attribute and a
`byte` attribute, and produced the input record with opcode, kind, delay
and `loaded` overwritten — `scriptId`/`scripted` untouched. -/
theorem configureEvent_success {m : Module} {node : XmlNode}
    (h : (m.configureEvent node).2 = true) :
    ∃ s b, node.type = some s ∧ asLowerCaseString s = "recvbyte" ∧ node.byte = some b ∧
      (m.configureEvent node).1 =
        { m with
          recvbyte := toUInt8cast b
          type := MODULE_TYPE_RECVBYTE
          delay := match node.delay with | some d => toInt16cast d | none => 0
          loaded := true } := by
  unfold Module.configureEvent at h
  cases htype : node.type with
  | none =>
    simp only [htype] at h
    exact Bool.noConfusion h
  | some s =>
    simp only [htype] at h
    by_cases hlow : asLowerCaseString s = "recvbyte"
    · rw [if_pos hlow] at h
      cases hbyte : node.byte with
      | none =>
        simp only [hbyte] at h
        exact Bool.noConfusion h
      | some b =>
        refine ⟨s, b, rfl, hlow, rfl, ?_⟩
        unfold Module.configureEvent
        simp only [htype]
        rw [if_pos hlow]
        simp only [hbyte]
        cases node.delay with
        | none => rfl
        | some d => rfl
    · rw [if_neg hlow] at h
      simp at h

/-- On failure, `configureEvent` only reset the delay: kind and `loaded`
keep their previous values. -/
theorem configureEvent_failure {m : Module} {node : XmlNode}
    (h : (m.configureEvent node).2 = false) :
    (m.configureEvent node).1 = { m with delay := 0 } := by
  unfold Module.configureEvent at h ⊢
  cases htype : node.type with
  | none => rfl
  | some s =>
    simp only [htype] at h ⊢
    by_cases hlow : asLowerCaseString s = "recvbyte"
    · rw [if_pos hlow] at h ⊢
      cases hbyte : node.byte with
      | none => rfl
      | some b =>
        simp only [hbyte] at h
        cases node.delay <;> simp at h
    · rw [if_neg hlow]

/-- The three failure cases of the configuration grammar make
`configureEvent` return false. -/
theorem configureEvent_fails_cases (m : Module) (node : XmlNode)
    (h : node.type = none
      ∨ (∃ s, node.type = some s ∧ asLowerCaseString s ≠ "recvbyte")
      ∨ (∃ s, node.type = some s ∧ asLowerCaseString s = "recvbyte" ∧ node.byte = none)) :
    (m.configureEvent node).2 = false := by
  unfold Module.configureEvent
  rcases h with h1 | ⟨s, h2, h3⟩ | ⟨s, h4, h5, h6⟩
  · simp only [h1]
  · simp only [h2]
    rw [if_neg h3]
  · simp only [h4]
    rw [if_pos h5]
    simp only [h6]

theorem toInt16cast_bounds (n : Nat) :
    -32768 ≤ toInt16cast n ∧ toInt16cast n < 32768 := by
  simp only [toInt16cast]
  split <;> omega

theorem toInt16cast_neg_iff (n : Nat) : toInt16cast n < 0 ↔ 32768 ≤ n % 65536 := by
  simp only [toInt16cast]
  split <;> omega

/-- When the player resolves, an entry is stored at `byte` with kind
`MODULE_TYPE_RECVBYTE`, and the throttle permits, dispatch arms the
throttle and runs the bridge on that entry. -/
theorem executeOnRecvbyte_matched (ms : Modules) (rt : LuaRuntime)
    (players : Nat → Option Player) (pid : Nat) (msg : NetworkMessage) (byte : Nat)
    (pl : Player) (m : Module) (hwf : ms.WF) (hpl : players pid = some pl)
    (hfind : findRecvbyte ms.recvbyteList byte = some m)
    (hty : m.type = MODULE_TYPE_RECVBYTE) (hrun : pl.canRunModule byte = true) :
    ms.executeOnRecvbyte rt players pid msg byte =
      { invoked := some m
        player := some (pl.setModuleDelay byte m.delay)
        call := (m.executeOnRecvbyte rt (pl.setModuleDelay byte m.delay) msg).call
        log := (m.executeOnRecvbyte rt (pl.setModuleDelay byte m.delay) msg).log } := by
  unfold Modules.executeOnRecvbyte
  simp only [hpl]
  rw [dispatchScan_eq rt pl msg byte ms.recvbyteList hwf.1 hwf.2]
  simp only [hfind]
  rw [if_pos ⟨hty, hrun⟩]

/-- Every record stored in a reachable registry has kind
`MODULE_TYPE_RECVBYTE`: `registerEvent` refuses `MODULE_TYPE_NONE`,
`copyEvent` and `clearEvent` never change the kind. -/
theorem reachable_stored_type (ms : Modules) (h : ReachableModules ms) :
    ∀ p ∈ ms.recvbyteList, p.2.type = MODULE_TYPE_RECVBYTE := by
  induction h with
  | init => intro p hp; simp [Modules.init] at hp
  | register ms0 m hr ih =>
    intro p hp
    unfold Modules.registerEvent at hp
    by_cases hne : m.type = MODULE_TYPE_NONE
    · rw [if_pos hne] at hp
      exact ih p hp
    · rw [if_neg hne, getEventByRecvbyte_false] at hp
      have hmty : m.type = MODULE_TYPE_RECVBYTE := moduleType_ne_none hne
      cases hf : findRecvbyte ms0.recvbyteList m.recvbyte with
      | some oldModule =>
        simp only [hf] at hp
        by_cases hg : oldModule.loaded = false ∧ oldModule.type = m.type
        · rw [if_pos hg] at hp
          rcases mem_updateRecvbyte hp with h1 | h2
          · exact ih p h1
          · have hold : (m.recvbyte, oldModule) ∈ ms0.recvbyteList := findRecvbyte_mem hf
            have : p.2.type = oldModule.type := by rw [h2]; rfl
            rw [this]
            exact ih (m.recvbyte, oldModule) hold
        · rw [if_neg hg] at hp
          exact ih p hp
      | none =>
        simp only [hf] at hp
        rcases List.mem_append.mp hp with h1 | h2
        · exact ih p h1
        · have : p = (m.recvbyte, m) := by simpa using h2
          rw [this]
          exact hmty
  | clear ms0 hr ih =>
    intro p hp
    unfold Modules.clear at hp
    rcases List.mem_map.mp hp with ⟨q, hq, hpq⟩
    have : p.2.type = q.2.type := by rw [← hpq]; rfl
    rw [this]
    exact ih q hq

/-! ### Claim C1 — dispatch selectivity -/

/-- C1 counterexample: the claim as stated is false — dispatch never
checks `loaded`.  Register a bound handler at opcode 10, `clear()` the
registry (entry keeps kind `MODULE_TYPE_RECVBYTE` but `loaded = false`),
then dispatch opcode 10 for a resolving player with a permitting
throttle: the unloaded handler is invoked (its bridge even issues a
script call with `scriptId = 0`). -/
theorem dispatch_invokes_unloaded_entry :
    (cMs2.executeOnRecvbyte cRt1 cPlayers 42 cMsg 10).invoked = some cBound.clearEvent
    ∧ cBound.clearEvent.loaded = false
    ∧ findRecvbyte cMs2.recvbyteList 10 = some cBound.clearEvent
    ∧ (cMs2.executeOnRecvbyte cRt1 cPlayers 42 cMsg 10).call.isSome = true := by
  decide

/-- C1 (amended): for every well-formed registry state, player id,
message, and opcode `k`, dispatch (`Modules::executeOnRecvbyte`) invokes
at most one handler per call (structurally: `invoked` is an `Option`),
and it invokes the handler stored at opcode `k` if and only if the player
id resolves to a player, an entry at `k` exists, its kind is
`MODULE_TYPE_RECVBYTE`, and the player's per-opcode throttle permits
execution; in every other case dispatch returns without invoking
anything.  (The claim's further condition that the entry be loaded is
not checked by the code.) -/
theorem dispatch_selectivity (ms : Modules) (rt : LuaRuntime)
    (players : Nat → Option Player) (pid : Nat) (msg : NetworkMessage) (byte : Nat)
    (hwf : ms.WF) :
    ((ms.executeOnRecvbyte rt players pid msg byte).invoked.isSome = true ↔
      ∃ pl m, players pid = some pl ∧ findRecvbyte ms.recvbyteList byte = some m
        ∧ m.type = MODULE_TYPE_RECVBYTE ∧ pl.canRunModule byte = true)
    ∧ (∀ m, (ms.executeOnRecvbyte rt players pid msg byte).invoked = some m →
        findRecvbyte ms.recvbyteList byte = some m) := by
  constructor
  · constructor
    · intro h
      unfold Modules.executeOnRecvbyte at h
      cases hpl : players pid with
      | none => simp only [hpl] at h; exact Bool.noConfusion h
      | some pl =>
        simp only [hpl] at h
        rw [dispatchScan_eq rt pl msg byte ms.recvbyteList hwf.1 hwf.2] at h
        cases hfind : findRecvbyte ms.recvbyteList byte with
        | none => simp only [hfind] at h; exact Bool.noConfusion h
        | some m0 =>
          simp only [hfind] at h
          by_cases hc : m0.type = MODULE_TYPE_RECVBYTE ∧ pl.canRunModule byte = true
          · exact ⟨pl, m0, rfl, rfl, hc.1, hc.2⟩
          · rw [if_neg hc] at h
            exact Bool.noConfusion h
    · rintro ⟨pl, m0, hpl, hfind, hty, hrun⟩
      rw [executeOnRecvbyte_matched ms rt players pid msg byte pl m0 hwf hpl hfind hty hrun]
      rfl
  · intro m h
    unfold Modules.executeOnRecvbyte at h
    cases hpl : players pid with
    | none => simp only [hpl] at h; exact Option.noConfusion h
    | some pl =>
      simp only [hpl] at h
      rw [dispatchScan_eq rt pl msg byte ms.recvbyteList hwf.1 hwf.2] at h
      cases hfind : findRecvbyte ms.recvbyteList byte with
      | none => simp only [hfind] at h; exact Option.noConfusion h
      | some m0 =>
        simp only [hfind] at h
        by_cases hc : m0.type = MODULE_TYPE_RECVBYTE ∧ pl.canRunModule byte = true
        · rw [if_pos hc] at h
          have : m0 = m := Option.some.inj h
          rw [← this]
        · rw [if_neg hc] at h
          exact Option.noConfusion h

/-- C1 witness: the amended dispatch-selectivity theorem applied to the
concrete registry with the bound handler at opcode 10. -/
theorem dispatch_selectivity_witness :
    (((cMs1.executeOnRecvbyte cRt1 cPlayers 42 cMsg 10).invoked.isSome = true ↔
      ∃ pl m, cPlayers 42 = some pl ∧ findRecvbyte cMs1.recvbyteList 10 = some m
        ∧ m.type = MODULE_TYPE_RECVBYTE ∧ pl.canRunModule 10 = true)
    ∧ (∀ m, (cMs1.executeOnRecvbyte cRt1 cPlayers 42 cMsg 10).invoked = some m →
        findRecvbyte cMs1.recvbyteList 10 = some m)) :=
  dispatch_selectivity cMs1 cRt1 cPlayers 42 cMsg 10 (by unfold Modules.WF; decide)

/-! ### Claim C2 — behaviour on script-environment exhaustion -/

/-- C2 counterexample: the claim as stated is false — on pool exhaustion
the throttle IS armed, because `Modules::executeOnRecvbyte` calls
`player->setModuleDelay` before the bridge ever tries
`reserveScriptEnv`.  Concretely: loaded handler at opcode 10 with delay
500, exhausted pool — the overflow error is logged and the script call
skipped, yet the player's throttle now holds `(10, 500)`. -/
theorem dispatch_exhaustion_not_retryable :
    (cMs1.executeOnRecvbyte cRt0 cPlayers 42 cMsg 10).call = none
    ∧ (cMs1.executeOnRecvbyte cRt0 cPlayers 42 cMsg 10).log =
        some ("Call stack overflow. Too many lua script calls being nested alice")
    ∧ ((cMs1.executeOnRecvbyte cRt0 cPlayers 42 cMsg 10).player.map Player.armedDelays) =
        some [(10, 500)] := by
  decide

/-- C2 (amended): for every dispatch call in which the script-environment
pool is exhausted, the error is logged and the script call is skipped,
but the player's per-opcode throttle IS armed (`setModuleDelay` runs
before the bridge), so a subsequent message for the same player and
opcode is throttled exactly as if the script had run. -/
theorem dispatch_exhaustion_arms_throttle (ms : Modules) (rt : LuaRuntime)
    (players : Nat → Option Player) (pid : Nat) (msg : NetworkMessage) (byte : Nat)
    (pl : Player) (m : Module) (hwf : ms.WF) (hpl : players pid = some pl)
    (hfind : findRecvbyte ms.recvbyteList byte = some m)
    (hty : m.type = MODULE_TYPE_RECVBYTE) (hrun : pl.canRunModule byte = true)
    (hexh : rt.envFree = 0) :
    (ms.executeOnRecvbyte rt players pid msg byte).call = none
    ∧ (ms.executeOnRecvbyte rt players pid msg byte).log =
        some ("Call stack overflow. Too many lua script calls being nested " ++ pl.name)
    ∧ (ms.executeOnRecvbyte rt players pid msg byte).player =
        some (pl.setModuleDelay byte m.delay)
    ∧ (pl.setModuleDelay byte m.delay).armedDelays = (byte, m.delay) :: pl.armedDelays := by
  rw [executeOnRecvbyte_matched ms rt players pid msg byte pl m hwf hpl hfind hty hrun]
  unfold Module.executeOnRecvbyte
  rw [if_pos hexh]
  exact ⟨rfl, rfl, rfl, rfl⟩

/-- C2 witness: the amended exhaustion theorem applied to the concrete
loaded registry and the exhausted runtime. -/
theorem dispatch_exhaustion_arms_throttle_witness :
    ((cMs1.executeOnRecvbyte cRt0 cPlayers 42 cMsg 10).call = none
    ∧ (cMs1.executeOnRecvbyte cRt0 cPlayers 42 cMsg 10).log =
        some ("Call stack overflow. Too many lua script calls being nested " ++ cPlayer.name)
    ∧ (cMs1.executeOnRecvbyte cRt0 cPlayers 42 cMsg 10).player =
        some (cPlayer.setModuleDelay 10 cBound.delay)
    ∧ (cPlayer.setModuleDelay 10 cBound.delay).armedDelays =
        (10, cBound.delay) :: cPlayer.armedDelays) :=
  dispatch_exhaustion_arms_throttle cMs1 cRt0 cPlayers 42 cMsg 10 cPlayer cBound
    (by unfold Modules.WF; decide) rfl (by decide) (by decide) rfl rfl

/-! ### Claim C3 — meaning of the `loaded` flag -/

/-- C3 counterexample: the claim as stated is false — `configureEvent`
sets `loaded = true` on its own, with no script body bound: after a
successful configuration of a fresh record, `loaded = true` while
`scripted = false` and `scriptId = 0`. -/
theorem configure_loads_without_script :
    ((Module.fresh 0).configureEvent cNode).2 = true
    ∧ ((Module.fresh 0).configureEvent cNode).1.loaded = true
    ∧ ((Module.fresh 0).configureEvent cNode).1.scripted = false
    ∧ ((Module.fresh 0).configureEvent cNode).1.scriptId = 0 := by
  decide

/-- C3 (amended): for every handler record stored in a registry reachable
by any sequence of `registerEvent` and `clear` operations, `loaded = true`
implies that configuration has been successfully applied
(`kind ≠ MODULE_TYPE_NONE`); and `loaded` becomes true as soon as
configuration alone succeeds — no script binding is required
(`scripted = true` and `script_id ≠ 0` do NOT follow from `loaded`). -/
theorem loaded_implies_configured :
    (∀ ms, ReachableModules ms → ∀ p ∈ ms.recvbyteList,
        p.2.loaded = true → p.2.type ≠ MODULE_TYPE_NONE)
    ∧ (∀ (m : Module) (node : XmlNode), (m.configureEvent node).2 = true →
        (m.configureEvent node).1.loaded = true) := by
  constructor
  · intro ms h p hp _
    rw [reachable_stored_type ms h p hp]
    intro hcontra
    exact ModuleType.noConfusion hcontra
  · intro m node h
    obtain ⟨s, b, _, _, _, heq⟩ := configureEvent_success h
    rw [heq]

/-- C3 witness: the amended theorem applied to the concrete one-entry
registry built by registering the configured (but never scripted) record
`cModule`, and to the concrete configuration node. -/
theorem loaded_implies_configured_witness :
    ((10 : Nat), cModule).2.type ≠ MODULE_TYPE_NONE
    ∧ ((Module.fresh 0).configureEvent cNode).1.loaded = true :=
  ⟨loaded_implies_configured.1 (Modules.init.registerEvent cModule).2.1
      (ReachableModules.register Modules.init cModule ReachableModules.init)
      (10, cModule) (by decide) (by decide),
    loaded_implies_configured.2 (Module.fresh 0) cNode (by decide)⟩

/-! ### Claim C4 — two-pass copy-bind -/

/-- C4 (confirmed): registering over an existing unloaded
`MODULE_TYPE_RECVBYTE` entry with a second handler of the same opcode and
kind succeeds and leaves a single entry at that opcode — the original
record — whose script binding (`scriptId`, interface reference,
`scripted`, `loaded`) becomes the second handler's, while the original
entry's opcode, kind and delay are undisturbed and every other key of the
map is untouched. -/
theorem registerEvent_copy_bind (ms : Modules) (old new : Module) (k : Nat)
    (hfind : findRecvbyte ms.recvbyteList k = some old)
    (hload : old.loaded = false) (hto : old.type = MODULE_TYPE_RECVBYTE)
    (htn : new.type = MODULE_TYPE_RECVBYTE) (hrb : new.recvbyte = k) :
    (ms.registerEvent new).1 = true
    ∧ findRecvbyte (ms.registerEvent new).2.1.recvbyteList k = some (old.copyEvent new)
    ∧ (old.copyEvent new).scriptId = new.scriptId
    ∧ (old.copyEvent new).scriptInterface = new.scriptInterface
    ∧ (old.copyEvent new).scripted = new.scripted
    ∧ (old.copyEvent new).loaded = new.loaded
    ∧ (old.copyEvent new).recvbyte = old.recvbyte
    ∧ (old.copyEvent new).type = old.type
    ∧ (old.copyEvent new).delay = old.delay
    ∧ (∀ j, j ≠ k → findRecvbyte (ms.registerEvent new).2.1.recvbyteList j
        = findRecvbyte ms.recvbyteList j)
    ∧ (ms.registerEvent new).2.1.recvbyteList.map Prod.fst = ms.recvbyteList.map Prod.fst := by
  have hne : ¬(new.type = MODULE_TYPE_NONE) := by
    rw [htn]
    exact fun hcontra => ModuleType.noConfusion hcontra
  have hcond : old.loaded = false ∧ old.type = new.type := ⟨hload, by rw [hto, htn]⟩
  have hreg : ms.registerEvent new =
      (true,
       { ms with recvbyteList := updateRecvbyte ms.recvbyteList k (old.copyEvent new) },
       none) := by
    unfold Modules.registerEvent
    rw [if_neg hne, getEventByRecvbyte_false, hrb]
    simp only [hfind]
    rw [if_pos hcond]
  rw [hreg]
  refine ⟨rfl, ?_, rfl, rfl, rfl, rfl, rfl, rfl, rfl, ?_, ?_⟩
  · rw [findRecvbyte_updateRecvbyte_self, hfind]
    rfl
  · intro j hj
    exact findRecvbyte_updateRecvbyte_other ms.recvbyteList k (old.copyEvent new) hj
  · exact updateRecvbyte_keys ms.recvbyteList k (old.copyEvent new)

/-- C4 witness: copy-bind onto the cleared registry `cMs2` (unloaded
recvbyte entry at opcode 10) with the bound handler `cBound`. -/
theorem registerEvent_copy_bind_witness :
    ((cMs2.registerEvent cBound).1 = true
    ∧ findRecvbyte (cMs2.registerEvent cBound).2.1.recvbyteList 10 =
        some (cBound.clearEvent.copyEvent cBound)
    ∧ (cBound.clearEvent.copyEvent cBound).scriptId = cBound.scriptId
    ∧ (cBound.clearEvent.copyEvent cBound).scriptInterface = cBound.scriptInterface
    ∧ (cBound.clearEvent.copyEvent cBound).scripted = cBound.scripted
    ∧ (cBound.clearEvent.copyEvent cBound).loaded = cBound.loaded
    ∧ (cBound.clearEvent.copyEvent cBound).recvbyte = cBound.clearEvent.recvbyte
    ∧ (cBound.clearEvent.copyEvent cBound).type = cBound.clearEvent.type
    ∧ (cBound.clearEvent.copyEvent cBound).delay = cBound.clearEvent.delay
    ∧ (∀ j, j ≠ 10 → findRecvbyte (cMs2.registerEvent cBound).2.1.recvbyteList j
        = findRecvbyte cMs2.recvbyteList j)
    ∧ (cMs2.registerEvent cBound).2.1.recvbyteList.map Prod.fst =
        cMs2.recvbyteList.map Prod.fst) :=
  registerEvent_copy_bind cMs2 cBound.clearEvent cBound 10
    (by decide) (by decide) (by decide) (by decide) (by decide)

/-! ### Claim C5 — rejection of conflicting reload -/

/-- C5 (confirmed): when the entry stored at opcode `k` is already loaded
— or its kind differs from the new handler's kind — any `registerEvent`
of a handler with opcode `k` returns false and leaves the registry (map
and stored entry included) unchanged. -/
theorem registerEvent_reject_conflict (ms : Modules) (old new : Module) (k : Nat)
    (hfind : findRecvbyte ms.recvbyteList k = some old) (hrb : new.recvbyte = k)
    (h : old.loaded = true ∨ old.type ≠ new.type) :
    (ms.registerEvent new).1 = false ∧ (ms.registerEvent new).2.1 = ms := by
  unfold Modules.registerEvent
  by_cases hne : new.type = MODULE_TYPE_NONE
  · rw [if_pos hne]
    exact ⟨rfl, rfl⟩
  · rw [if_neg hne, getEventByRecvbyte_false, hrb]
    simp only [hfind]
    have hcond : ¬(old.loaded = false ∧ old.type = new.type) := by
      rcases h with h1 | h2
      · intro hc
        rw [h1] at hc
        exact Bool.noConfusion hc.1
      · intro hc
        exact h2 hc.2
    rw [if_neg hcond]
    exact ⟨rfl, rfl⟩

/-- C5 witness: re-registering the bound handler `cBound` over the
already-loaded entry at opcode 10 of `cMs1` fails without modification. -/
theorem registerEvent_reject_conflict_witness :
    ((cMs1.registerEvent cBound).1 = false ∧ (cMs1.registerEvent cBound).2.1 = cMs1) :=
  registerEvent_reject_conflict cMs1 cBound cBound 10
    (by decide) (by decide) (Or.inl (by decide))

/-! ### Claim C6 — delay decoding -/

/-- C6 counterexample: the claim as stated is false — `delay_ms ≥ 0`
does not hold for every configured record: the attribute value 40000 is
decoded as unsigned and then cast to `int16_t`, yielding the negative
delay -25536. -/
theorem configure_delay_negative :
    ((Module.fresh 0).configureEvent
        { type := some ("recvbyte"), byte := some 1, delay := some 40000 }).2 = true
    ∧ ((Module.fresh 0).configureEvent
        { type := some ("recvbyte"), byte := some 1, delay := some 40000 }).1.delay = -25536
    ∧ ((Module.fresh 0).configureEvent
        { type := some ("recvbyte"), byte := some 1, delay := some 40000 }).1.delay < 0 := by
  decide

/-- C6 (amended): on every successful configuration the stored delay is
the optional `delay` attribute decoded as an unsigned integer and
truncated to the 16-bit signed range (default 0 when absent); it always
lies in [-32768, 32767], and it is negative exactly when the attribute is
present with value ≡ 32768..65535 (mod 65536) — so `delay_ms ≥ 0` holds
only for attribute values below 32768 modulo 2^16. -/
theorem configure_delay_truncation (m : Module) (node : XmlNode)
    (h : (m.configureEvent node).2 = true) :
    (m.configureEvent node).1.delay =
      (match node.delay with | some d => toInt16cast d | none => 0)
    ∧ -32768 ≤ (m.configureEvent node).1.delay
    ∧ (m.configureEvent node).1.delay < 32768
    ∧ ((m.configureEvent node).1.delay < 0 ↔
        ∃ d, node.delay = some d ∧ 32768 ≤ d % 65536) := by
  obtain ⟨s, b, _, _, _, heq⟩ := configureEvent_success h
  rw [heq]
  cases hdelay : node.delay with
  | none =>
    refine ⟨rfl, by norm_num, by norm_num, ?_⟩
    constructor
    · intro hcontra
      norm_num at hcontra
    · rintro ⟨d, hd, _⟩
      exact Option.noConfusion hd
  | some d =>
    refine ⟨rfl, (toInt16cast_bounds d).1, (toInt16cast_bounds d).2, ?_⟩
    constructor
    · intro hneg
      exact ⟨d, rfl, (toInt16cast_neg_iff d).mp hneg⟩
    · rintro ⟨d2, hd2, hge⟩
      have hdd : d = d2 := Option.some.inj hd2
      rw [← hdd] at hge
      exact (toInt16cast_neg_iff d).mpr hge

/-- C6 witness: the amended delay theorem applied to the concrete node
with delay attribute 500. -/
theorem configure_delay_truncation_witness :
    (((Module.fresh 0).configureEvent cNode).1.delay =
      (match cNode.delay with | some d => toInt16cast d | none => 0)
    ∧ -32768 ≤ ((Module.fresh 0).configureEvent cNode).1.delay
    ∧ ((Module.fresh 0).configureEvent cNode).1.delay < 32768
    ∧ (((Module.fresh 0).configureEvent cNode).1.delay < 0 ↔
        ∃ d, cNode.delay = some d ∧ 32768 ≤ d % 65536)) :=
  configure_delay_truncation (Module.fresh 0) cNode (by decide)

/-! ### Claim C7 — clear -/

/-- C7 (confirmed): after `clear()` every stored entry is unbound
(`loaded = false`, `scriptId = 0`, `scripted = false`, interface
reference nulled) while its opcode, kind and delay are preserved; the map
keeps exactly its keys, the embedded script runtime is reinitialized
(generation bumped), and — `clear` being a total function — there are no
failure modes. -/
theorem clear_resets_bindings (ms : Modules) :
    ((ms.clear).recvbyteList.map Prod.fst = ms.recvbyteList.map Prod.fst)
    ∧ (∀ p ∈ (ms.clear).recvbyteList,
        p.2.loaded = false ∧ p.2.scriptId = 0 ∧ p.2.scripted = false
        ∧ p.2.scriptInterface = none)
    ∧ (∀ k m, findRecvbyte ms.recvbyteList k = some m →
        findRecvbyte (ms.clear).recvbyteList k = some m.clearEvent
        ∧ m.clearEvent.recvbyte = m.recvbyte ∧ m.clearEvent.type = m.type
        ∧ m.clearEvent.delay = m.delay)
    ∧ (ms.clear).runtimeGen = ms.runtimeGen + 1 := by
  refine ⟨?_, ?_, ?_, rfl⟩
  · unfold Modules.clear
    rw [List.map_map]
    rfl
  · intro p hp
    unfold Modules.clear at hp
    rcases List.mem_map.mp hp with ⟨q, _, hpq⟩
    rw [← hpq]
    exact ⟨rfl, rfl, rfl, rfl⟩
  · intro k m hfind
    unfold Modules.clear
    rw [findRecvbyte_map Module.clearEvent ms.recvbyteList k, hfind]
    exact ⟨rfl, rfl, rfl, rfl⟩

/-- C7 witness: clearing the concrete loaded registry `cMs1` and reading
off the entry at opcode 10. -/
theorem clear_resets_bindings_witness :
    (((10 : Nat), cBound.clearEvent).2.loaded = false
    ∧ ((10 : Nat), cBound.clearEvent).2.scriptId = 0
    ∧ ((10 : Nat), cBound.clearEvent).2.scripted = false
    ∧ ((10 : Nat), cBound.clearEvent).2.scriptInterface = none)
    ∧ (findRecvbyte (cMs1.clear).recvbyteList 10 = some cBound.clearEvent
    ∧ cBound.clearEvent.recvbyte = cBound.recvbyte ∧ cBound.clearEvent.type = cBound.type
    ∧ cBound.clearEvent.delay = cBound.delay) :=
  ⟨(clear_resets_bindings cMs1).2.1 (10, cBound.clearEvent) (by decide),
    (clear_resets_bindings cMs1).2.2.1 10 cBound (by decide)⟩

/-! ### Claim C8 — configuration failures are rejected at registration -/

/-- C8 (confirmed): on every configuration node on which configuration
fails (missing `type` attribute, `type` other than `recvbyte`
case-insensitively, or `recvbyte` with a missing `byte` attribute),
`configureEvent` returns false and the fresh handler record still has
`kind = MODULE_TYPE_NONE` and `loaded = false`; a subsequent
`registerEvent` of that record then fails, logging the missing-type
error, and changes nothing. -/
theorem configure_failure_rejected (iface : Nat) (node : XmlNode)
    (h : node.type = none
      ∨ (∃ s, node.type = some s ∧ asLowerCaseString s ≠ "recvbyte")
      ∨ (∃ s, node.type = some s ∧ asLowerCaseString s = "recvbyte" ∧ node.byte = none)) :
    ((Module.fresh iface).configureEvent node).2 = false
    ∧ ((Module.fresh iface).configureEvent node).1.type = MODULE_TYPE_NONE
    ∧ ((Module.fresh iface).configureEvent node).1.loaded = false
    ∧ (∀ ms : Modules, ms.registerEvent ((Module.fresh iface).configureEvent node).1 =
        (false, ms, some ("Trying to register event without type!"))) := by
  have hfail : ((Module.fresh iface).configureEvent node).2 = false :=
    configureEvent_fails_cases (Module.fresh iface) node h
  have heq : ((Module.fresh iface).configureEvent node).1 =
      { Module.fresh iface with delay := 0 } := configureEvent_failure hfail
  refine ⟨hfail, by rw [heq]; rfl, by rw [heq]; rfl, ?_⟩
  intro ms
  unfold Modules.registerEvent
  rw [if_pos (by rw [heq]; rfl)]

/-- C8 witness: a node with a `byte` attribute but no `type` attribute. -/
theorem configure_failure_rejected_witness :
    (((Module.fresh 0).configureEvent { type := none, byte := some 1, delay := none }).2 = false
    ∧ ((Module.fresh 0).configureEvent
        { type := none, byte := some 1, delay := none }).1.type = MODULE_TYPE_NONE
    ∧ ((Module.fresh 0).configureEvent
        { type := none, byte := some 1, delay := none }).1.loaded = false
    ∧ (∀ ms : Modules, ms.registerEvent ((Module.fresh 0).configureEvent
          { type := none, byte := some 1, delay := none }).1 =
        (false, ms, some ("Trying to register event without type!")))) :=
  configure_failure_rejected 0 { type := none, byte := some 1, delay := none }
    (Or.inl rfl)

/-! ### Claim C9 — the registry never drops keys or replaces records -/

/-- C9 (confirmed): under any `registerEvent` or `clear`, every opcode
key present in the map stays present and the record stored there keeps
its identity (its opcode, kind and delay are those of the record that was
there — a successful `registerEvent` either inserts under an absent
opcode or copies a binding into the stored record); moreover the branch
of `registerEvent` that would overwrite an existing slot is unreachable,
since a lookup with `force = false` returns any present entry first. -/
theorem registry_entries_stable :
    (∀ (ms : Modules) (m : Module) (k : Nat) (old : Module),
        findRecvbyte ms.recvbyteList k = some old →
        ∃ e, findRecvbyte (ms.registerEvent m).2.1.recvbyteList k = some e
          ∧ e.recvbyte = old.recvbyte ∧ e.type = old.type ∧ e.delay = old.delay)
    ∧ (∀ (ms : Modules) (k : Nat) (old : Module),
        findRecvbyte ms.recvbyteList k = some old →
        ∃ e, findRecvbyte (ms.clear).recvbyteList k = some e
          ∧ e.recvbyte = old.recvbyte ∧ e.type = old.type ∧ e.delay = old.delay)
    ∧ (∀ (ms : Modules) (m : Module),
        ms.getEventByRecvbyte m.recvbyte false = none →
        findRecvbyte ms.recvbyteList m.recvbyte = none) := by
  refine ⟨?_, ?_, ?_⟩
  · intro ms m k old hfind
    unfold Modules.registerEvent
    by_cases hne : m.type = MODULE_TYPE_NONE
    · rw [if_pos hne]
      exact ⟨old, hfind, rfl, rfl, rfl⟩
    · rw [if_neg hne, getEventByRecvbyte_false]
      cases hf2 : findRecvbyte ms.recvbyteList m.recvbyte with
      | some oldModule =>
        simp only []
        by_cases hg : oldModule.loaded = false ∧ oldModule.type = m.type
        · rw [if_pos hg]
          by_cases hk : k = m.recvbyte
          · subst hk
            have hoo : oldModule = old := by
              rw [hfind] at hf2
              exact (Option.some.inj hf2).symm
            refine ⟨oldModule.copyEvent m, ?_, ?_, ?_, ?_⟩
            · rw [findRecvbyte_updateRecvbyte_self, hfind]
              rfl
            · rw [hoo]; rfl
            · rw [hoo]; rfl
            · rw [hoo]; rfl
          · rw [findRecvbyte_updateRecvbyte_other ms.recvbyteList m.recvbyte
                (oldModule.copyEvent m) hk]
            exact ⟨old, hfind, rfl, rfl, rfl⟩
        · rw [if_neg hg]
          exact ⟨old, hfind, rfl, rfl, rfl⟩
      | none =>
        simp only []
        refine ⟨old, ?_, rfl, rfl, rfl⟩
        rw [findRecvbyte_append, hfind]
  · intro ms k old hfind
    unfold Modules.clear
    rw [findRecvbyte_map Module.clearEvent ms.recvbyteList k, hfind]
    exact ⟨old.clearEvent, rfl, rfl, rfl, rfl⟩
  · intro ms m h
    rw [getEventByRecvbyte_false] at h
    exact h

/-- C9 witness: registering `cBound` over the cleared registry `cMs2`
preserves the entry at opcode 10; clearing `cMs1` preserves it too; and
the lookup-miss premise of the dead overwrite branch propagates. -/
theorem registry_entries_stable_witness :
    (∃ e, findRecvbyte (cMs2.registerEvent cBound).2.1.recvbyteList 10 = some e
      ∧ e.recvbyte = cBound.clearEvent.recvbyte ∧ e.type = cBound.clearEvent.type
      ∧ e.delay = cBound.clearEvent.delay)
    ∧ (∃ e, findRecvbyte (cMs1.clear).recvbyteList 10 = some e
      ∧ e.recvbyte = cBound.recvbyte ∧ e.type = cBound.type ∧ e.delay = cBound.delay)
    ∧ findRecvbyte Modules.init.recvbyteList cBound.recvbyte = none :=
  ⟨registry_entries_stable.1 cMs2 cBound 10 cBound.clearEvent (by decide),
    registry_entries_stable.2.1 cMs1 10 cBound (by decide),
    registry_entries_stable.2.2 Modules.init cBound (by decide)⟩

/-! ### Claim C10 — userdata strength of the bridge arguments -/

/-- C10 (confirmed, against the spec-modelled userdata semantics): on
every bridge invocation that obtains a script environment, the player is
pushed as strong `"Player"` userdata — participating in shared ownership,
so a player kept alive only by the script stays live during the call —
while the message is pushed as weak `"NetworkMessage"` userdata that does
not extend the buffer's lifetime, so the caller-owned buffer may be freed
once dispatch returns. -/
theorem bridge_userdata_strength (m : Module) (rt : LuaRuntime) (pl : Player)
    (msg : NetworkMessage) (henv : ¬(rt.envFree = 0)) (hobj : pl.objId ≠ msg.objId) :
    ∃ c, (m.executeOnRecvbyte rt pl msg).call = some c
      ∧ c.args = [LuaValue.userdata ("Player") Strength.strong pl.objId,
                  LuaValue.userdata ("NetworkMessage") Strength.weak msg.objId,
                  LuaValue.number m.recvbyte]
      ∧ scriptKeepsAlive c.args pl.objId = true
      ∧ scriptKeepsAlive c.args msg.objId = false := by
  unfold Module.executeOnRecvbyte
  rw [if_neg henv]
  refine ⟨_, rfl, rfl, ?_, ?_⟩
  · simp [scriptKeepsAlive]
  · simp [scriptKeepsAlive, hobj]

/-- C10 witness: the concrete bound handler, player and message, with one
free environment. -/
theorem bridge_userdata_strength_witness :
    (∃ c, (cBound.executeOnRecvbyte cRt1 cPlayer cMsg).call = some c
      ∧ c.args = [LuaValue.userdata ("Player") Strength.strong cPlayer.objId,
                  LuaValue.userdata ("NetworkMessage") Strength.weak cMsg.objId,
                  LuaValue.number cBound.recvbyte]
      ∧ scriptKeepsAlive c.args cPlayer.objId = true
      ∧ scriptKeepsAlive c.args cMsg.objId = false) :=
  bridge_userdata_strength cBound cRt1 cPlayer cMsg (by decide) (by decide)

end Canary
